import Mathlib

/-!
Verification of the perception-to-actuation core of the CarND-Capstone
drive stack: the traffic-light debounce state machine, the classifier
post-processing, the stop-line locator, the nearest-waypoint lookup, the
deceleration trajectory planner and the throttle/brake/steering controller.

Each definition is a shallow embedding of the corresponding Python
function; machine floats are modelled as rationals (ℚ) where the code is
pure arithmetic and as reals (ℝ) where square roots occur.
-/

namespace Capstone

/-- Traffic light colors, as in the styx_msgs TrafficLight constants. -/
inductive Color where
  | RED
  | YELLOW
  | GREEN
  | UNKNOWN
  deriving DecidableEq, Repr

/-! ## TLClassifier (tl_classifier.py)

`get_classification` takes the best-scoring detection of the external
model (`scores[0][0]`, `classes[0][0]`); scores are rationals in [0,1],
classes naturals.  `self.threshold = 0.25` from `__init__`. -/

/-- Embeds `TLClassifier.get_classification`, lines 29-55: if the best
score is strictly above the 0.25 threshold, map class 1/2/3 to
GREEN/YELLOW/RED; everything else falls through to UNKNOWN. -/
def get_classification (score : ℚ) (cls : ℕ) : Color :=
  if score > 1/4 then
    if cls = 1 then Color.GREEN
    else if cls = 2 then Color.YELLOW
    else if cls = 3 then Color.RED
    else Color.UNKNOWN
  else Color.UNKNOWN

/-! ## TLDetector.get_light_state (tl_detector.py, lines 136-154) -/

/-- Embeds `TLDetector.get_light_state`: if there is no camera image or
the classifier is not yet initialized, return RED; otherwise return the
classifier's output on the current image.  The classifier is modelled as
an opaque oracle function from images to colors (its internals are the
external model, out of scope). -/
def get_light_state {I : Type} (has_image : Bool) (classifier : Option (I → Color))
    (camera_image : I) : Color :=
  if has_image = false ∨ classifier.isNone = true then Color.RED
  else match classifier with
    | some f => f camera_image
    | none => Color.RED

/-! ## TLDetector.image_cb debounce (tl_detector.py, lines 94-107)

State fields mirror `self.state`, `self.last_state`, `self.last_wp`,
`self.state_count`; `STATE_COUNT_THRESHOLD = 3`.  Each camera frame
supplies `(light_wp, state)` from `process_traffic_lights`; the step
returns the new state together with the value published on
`/traffic_waypoint` this frame (`none` when the frame publishes
nothing). -/

structure FusionState where
  state : Color
  last_state : Color
  last_wp : ℤ
  state_count : ℕ
  deriving DecidableEq, Repr

def STATE_COUNT_THRESHOLD : ℕ := 3

/-- Embeds the publish block of `TLDetector.image_cb`: on a raw
classification different from the stored one, reset the counter and
store the new color (no publish); otherwise, if the counter has reached
the threshold, commit and publish the stop index (or -1 when not RED);
otherwise publish the previously committed index.  The counter is
incremented at the end of every frame. -/
def image_cb_step (st : FusionState) (light_wp : ℤ) (raw : Color) :
    FusionState × Option ℤ :=
  if st.state ≠ raw then
    ({ st with state := raw, state_count := 0 + 1 }, none)
  else if st.state_count ≥ STATE_COUNT_THRESHOLD then
    let lw : ℤ := if raw = Color.RED then light_wp else -1
    ({ st with last_state := st.state, last_wp := lw,
               state_count := st.state_count + 1 }, some lw)
  else
    ({ st with state_count := st.state_count + 1 }, some st.last_wp)

/-- Runs `image_cb_step` over a list of frames, collecting the value
published on each frame in order. -/
def image_cb_run (st : FusionState) : List (ℤ × Color) → FusionState × List (Option ℤ)
  | [] => (st, [])
  | (lw, raw) :: frames =>
    let (st', out) := image_cb_step st lw raw
    let (stFin, outs) := image_cb_run st' frames
    (stFin, out :: outs)

/-! ## Nearest-waypoint lookup (waypoint_updater.py lines 60-78,
tl_detector.py lines 109-134)

Route waypoints are 2D rational points.  `KDTree.query([x,y], 1)[1]` is an
external library call returning the index of the waypoint of minimum
Euclidean distance to the query; since the square root is monotone this is
the index of minimum squared distance, computed here by a first-match
linear argmin. -/

/-- Squared Euclidean distance between two 2D points. -/
def sqDist (a b : ℚ × ℚ) : ℚ :=
  (a.1 - b.1)^2 + (a.2 - b.2)^2

/-- Argmin scan for `nearestIdx`: `i` is the index of the head of the
remaining list, `(bestIdx, bestD)` the best index and squared distance so
far.  Strict comparison keeps the first index on ties. -/
def nearestAux (q : ℚ × ℚ) : List (ℚ × ℚ) → ℕ → ℕ → ℚ → ℕ
  | [], _, bestIdx, _ => bestIdx
  | w :: rest, i, bestIdx, bestD =>
    if sqDist w q < bestD then nearestAux q rest (i+1) i (sqDist w q)
    else nearestAux q rest (i+1) bestIdx bestD

/-- Embeds the `KDTree.query([x, y], 1)[1]` nearest-neighbor call: the
index of the waypoint closest to `q` (0 on an empty route, which the
nodes never build). -/
def nearestIdx (wps : List (ℚ × ℚ)) (q : ℚ × ℚ) : ℕ :=
  match wps with
  | [] => 0
  | w :: rest => nearestAux q rest 1 0 (sqDist w q)

/-- CPython list indexing for an index in [-n, n): a negative index counts
from the end, i.e. the element at `i mod n`. -/
def pythonGet (l : List (ℚ × ℚ)) (i : ℤ) : ℚ × ℚ :=
  l.getD (Int.toNat (i % (l.length : ℤ))) (0, 0)

/-- Dot product of 2D vectors (`np.dot`). -/
def dot (a b : ℚ × ℚ) : ℚ :=
  a.1 * b.1 + a.2 * b.2

/-- Componentwise difference of 2D points (`np.array` subtraction). -/
def vsub (a b : ℚ × ℚ) : ℚ × ℚ :=
  (a.1 - b.1, a.2 - b.2)

/-- Embeds `TLDetector.get_closest_waypoint` (tl_detector.py, lines
109-134): nearest index, then the half-plane test against
`waypoints_2d[closest_idx-1]`; advance to `(closest_idx+1) % N` when the
dot product is positive. -/
def get_closest_waypoint (wps : List (ℚ × ℚ)) (x y : ℚ) : ℕ :=
  let closest_idx := nearestIdx wps (x, y)
  let closest_coord := wps.getD closest_idx (0, 0)
  let prev_coord := pythonGet wps ((closest_idx : ℤ) - 1)
  let val := dot (vsub closest_coord prev_coord) (vsub (x, y) closest_coord)
  if 0 < val then (closest_idx + 1) % wps.length else closest_idx

/-- Embeds `WaypointUpdater.get_closest_waypoint_idx` (waypoint_updater.py,
lines 60-78): identical except that the half-plane test is against
`waypoints_2d[closest_idx-2]`. -/
def get_closest_waypoint_idx (wps : List (ℚ × ℚ)) (x y : ℚ) : ℕ :=
  let closest_idx := nearestIdx wps (x, y)
  let closest_coord := wps.getD closest_idx (0, 0)
  let prev_coord := pythonGet wps ((closest_idx : ℤ) - 2)
  let val := dot (vsub closest_coord prev_coord) (vsub (x, y) closest_coord)
  if 0 < val then (closest_idx + 1) % wps.length else closest_idx

/-! ## Stop-line locator (tl_detector.py, lines 156-184) -/

/-- Embeds the `for i, light in enumerate(self.lights)` loop of
`process_traffic_lights`: the accumulator carries
(closest_light, line_wp_idx, diff); a light whose stop-line waypoint index
has a forward offset `d` from the car with `0 ≤ d < diff` becomes the new
best. -/
def locateLoop {α : Type} (car : ℤ) (wps stop_lines : List (ℚ × ℚ)) :
    List α → ℕ → Option α × ℤ × ℤ → Option α × ℤ × ℤ
  | [], _, acc => acc
  | light :: rest, i, (cl, lw, diff) =>
    let line := stop_lines.getD i (0, 0)
    let temp_wp_idx := (get_closest_waypoint wps line.1 line.2 : ℤ)
    let d := temp_wp_idx - car
    if 0 ≤ d ∧ d < diff then
      locateLoop car wps stop_lines rest (i+1) (some light, temp_wp_idx, d)
    else
      locateLoop car wps stop_lines rest (i+1) (cl, lw, diff)

/-- Embeds `TLDetector.process_traffic_lights`: starts from
`closest_light = None`, `line_wp_idx = -1`; with a pose, scans the tracked
lights for the smallest in-range forward offset.  If a light was selected,
returns `(line_wp_idx, get_light_state(...))`; otherwise the Python
`return line_wp_idx, state` reads the never-assigned local `state` and
raises UnboundLocalError, modelled as `Except.error`. -/
def process_traffic_lights {α I : Type} (pose : Option (ℚ × ℚ))
    (lights : List α) (stop_line_positions : List (ℚ × ℚ))
    (wps : List (ℚ × ℚ)) (has_image : Bool)
    (classifier : Option (I → Color)) (camera_image : I) :
    Except String (ℤ × Color) :=
  let res : Option α × ℤ × ℤ :=
    match pose with
    | some (x, y) =>
      let car := (get_closest_waypoint wps x y : ℤ)
      locateLoop car wps stop_line_positions lights 0 (none, -1, (wps.length : ℤ))
    | none => (none, -1, 0)
  match res.1 with
  | some _ =>
    Except.ok (res.2.1, get_light_state has_image classifier camera_image)
  | none =>
    Except.error "UnboundLocalError: local variable state referenced before assignment"

/-! ## Controller (twist_controller.py)

The controller's helpers live in pid.py, lowpass.py and yaw_controller.py,
which are not under src/; they are modelled from the spec below.  All
arithmetic is over ℚ. -/

structure PIDState where
  int_val : ℚ
  last_error : ℚ
  deriving DecidableEq, Repr

/-- Modelled from the spec: pid.py (class PID, method `reset`) is not under
src/.  §3/§4.5: the ControllerState's PID integral memory is "reset
(integral cleared) whenever drive-by-wire is disabled". -/
def PID.reset (st : PIDState) : PIDState :=
  { st with int_val := 0 }

/-- Modelled from the spec: pid.py (class PID, method `step`) is not under
src/.  §4.5: "PID controller (kp=0.3, ki=0.1, kd=0.0, output clamped to
[0,1]) over velocity error = target − filtered-current, with sample time =
wall-clock delta since last tick".  The error is integrated over the
sample time, a derivative memory is kept, and the combined output is
clamped to [mn, mx].  Returns the output together with the new state. -/
def PID.step (kp ki kd mn mx : ℚ) (st : PIDState) (error sample_time : ℚ) :
    ℚ × PIDState :=
  let integral := st.int_val + error * sample_time
  let derivative := (error - st.last_error) / sample_time
  let val := kp * error + ki * integral + kd * derivative
  (max mn (min mx val), ⟨integral, error⟩)

/-- Modelled from the spec: lowpass.py (class LowPassFilter, method `filt`)
is not under src/.  §4.5: "Filter currentVelocity through a first-order
low-pass filter (time constant τ=0.5s, sample period 0.02s)".  The state
is the last filtered value; returns the filtered value and the new
state. -/
def LowPassFilter.filt (tau ts : ℚ) (last_val : ℚ) (val : ℚ) : ℚ × ℚ :=
  let a := ts / (tau + ts)
  let out := a * val + (1 - a) * last_val
  (out, out)

/-- Modelled from the spec: yaw_controller.py (class YawController, method
`get_steering`) is not under src/.  §4.5: "for non-zero currentVelocity,
desired yaw rate is scaled by the ratio of targetAngularVelocity to
targetLinearVelocity and by wheelbase/steer-ratio geometry, clamped to
[-maxSteerAngle, maxSteerAngle] and by maxLatAccel at the current speed";
§7: at currentVelocity ≈ 0 it short-circuits to a defined angle. -/
def YawController.get_steering (wheel_base steer_ratio max_lat_accel
    max_steer_angle : ℚ) (linear angular current : ℚ) : ℚ :=
  if linear = 0 ∨ current = 0 then 0
  else
    let yaw := angular * (current / linear)
    let yaw_bounded :=
      if 0 < current then
        max (-(max_lat_accel / current)) (min (max_lat_accel / current) yaw)
      else yaw
    let angle := steer_ratio * wheel_base * (yaw_bounded / current)
    max (-max_steer_angle) (min max_steer_angle angle)

/-- Mirrors `self.state` of Controller (twist_controller.py): the PID
memory, the low-pass filter memory (`self.velocity_lpf`), `self.last_time`
and `self.last_velocity`. -/
structure ControllerState where
  pid : PIDState
  lpf_last : ℚ
  last_time : ℚ
  last_velocity : ℚ
  deriving DecidableEq, Repr

/-- The constructor arguments of Controller kept by `control`
(twist_controller.py, lines 14-36). -/
structure ControlParams where
  vehicle_mass : ℚ
  decel_limit : ℚ
  wheel_radius : ℚ
  wheel_base : ℚ
  steer_ratio : ℚ
  max_lat_accel : ℚ
  max_steer_angle : ℚ
  deriving DecidableEq, Repr

/-- Embeds twist_controller.py lines 53-54: the PID sample time of a tick
at wall-clock time `now` is `now - self.last_time`. -/
def controlSampleTime (st : ControllerState) (now : ℚ) : ℚ :=
  now - st.last_time

/-- Embeds `Controller.control` (twist_controller.py, lines 39-71).
`now` models `rospy.get_time()`.  With drive-by-wire disabled the PID is
reset and (0,0,0) is returned with the rest of the state untouched;
otherwise the current velocity is low-pass filtered, steering comes from
the yaw controller, throttle from the PID over the velocity error with
the wall-clock sample time, and the brake from the stopped-car /
slow-down policy.  Returns ((throttle, brake, steering), new state). -/
def control (p : ControlParams) (st : ControllerState) (now : ℚ)
    (current_velocity : ℚ) (dbw_enabled : Bool)
    (linear_velocity angular_velocity : ℚ) : (ℚ × ℚ × ℚ) × ControllerState :=
  if dbw_enabled = false then
    ((0, 0, 0), { st with pid := PID.reset st.pid })
  else
    let fv := (LowPassFilter.filt (1/2) (1/50) st.lpf_last current_velocity).1
    let steering := YawController.get_steering p.wheel_base p.steer_ratio
      p.max_lat_accel p.max_steer_angle linear_velocity angular_velocity fv
    let velocity_error := linear_velocity - fv
    let sample_time := controlSampleTime st now
    let stepped := PID.step (3/10) (1/10) 0 0 1 st.pid velocity_error sample_time
    let throttle := stepped.1
    let tb : ℚ × ℚ :=
      if linear_velocity = 0 ∧ fv < 1/10 then (0, 400)
      else if throttle < 1/10 ∧ velocity_error < 0 then
        let decel := max velocity_error p.decel_limit
        (throttle, |decel| * p.vehicle_mass * p.wheel_radius)
      else (throttle, 0)
    ((tb.1, tb.2, steering), ⟨stepped.2, fv, now, fv⟩)

/-- Folds `control` with `dbw_enabled = false` over a list of
(time, current velocity, target linear, target angular) inputs. -/
def runDisabled (p : ControlParams) (st : ControllerState) :
    List (ℚ × ℚ × ℚ × ℚ) → ControllerState
  | [] => st
  | (now, cv, lv, av) :: rest =>
    runDisabled p (control p st now cv false lv av).2 rest

/-! ## Trajectory planner (waypoint_updater.py)

Positions and velocities are reals; segment lengths use `Real.sqrt`, so
the definitions of this section are noncomputable. -/

/-- A 3D position (`pose.pose.position`). -/
structure Position where
  x : ℝ
  y : ℝ
  z : ℝ

/-- A route waypoint: position and target linear velocity
(`twist.twist.linear.x`). -/
structure Waypoint where
  pos : Position
  vel : ℝ

instance : Inhabited Position := ⟨⟨0, 0, 0⟩⟩

instance : Inhabited Waypoint := ⟨⟨default, 0⟩⟩

/-- waypoint_updater.py line 27. -/
def LOOKAHEAD_WPS : ℕ := 50

/-- waypoint_updater.py line 28. -/
noncomputable def MAX_DECEL : ℝ := 1

/-- The segment length `dl` of `WaypointUpdater.distance` (line 142):
Euclidean distance between two positions. -/
noncomputable def dl (a b : Position) : ℝ :=
  Real.sqrt ((a.x - b.x)^2 + (a.y - b.y)^2 + (a.z - b.z)^2)

/-- The loop of `WaypointUpdater.distance` (lines 143-145): `prev` holds
the Python variable `wp1`, which is reassigned to `i` after every
iteration, so each step adds the segment from the previous index to the
current one (the first step adds the zero-length segment `wp1`-`wp1`). -/
noncomputable def distanceLoop (wps : List Waypoint) : ℕ → List ℕ → ℝ
  | _, [] => 0
  | prev, i :: rest =>
    dl (wps.getD prev default).pos (wps.getD i default).pos +
      distanceLoop wps i rest

/-- Embeds `WaypointUpdater.distance` (lines 140-146): iterates over
`range(wp1, wp2+1)`. -/
noncomputable def distance (wps : List Waypoint) (wp1 wp2 : ℕ) : ℝ :=
  distanceLoop wps wp1 (List.range' wp1 (wp2 + 1 - wp1))

/-- The `for i, wp in enumerate(waypoints)` loop of
`WaypointUpdater.decelerate_waypoints` (lines 98-110): `full` is the
whole slice the loop iterates over (the distance is always taken from
offset 0 of the slice, as in the source), `i` the current offset.  The
loop breaks at `i == stop_idx` before appending. -/
noncomputable def decelGo (full : List Waypoint) (stop_idx : ℕ) :
    ℕ → List Waypoint → List Waypoint
  | _, [] => []
  | i, wp :: rest =>
    let velocity := Real.sqrt (2 * MAX_DECEL * distance full 0 stop_idx)
    let velocity2 := if velocity < 1/2 then 0 else velocity
    let p : Waypoint := ⟨wp.pos, min velocity2 wp.vel⟩
    if i = stop_idx then [] else p :: decelGo full stop_idx (i+1) rest

/-- Embeds `WaypointUpdater.decelerate_waypoints` (lines 96-112):
`stop_idx = max(stopline_wp_idx - closest_idx - 2, 0)` (computed inside
the loop in the source, but constant across iterations). -/
noncomputable def decelerate_waypoints (stopline_wp_idx closest_idx : ℤ)
    (waypoints : List Waypoint) : List Waypoint :=
  decelGo waypoints (stopline_wp_idx - closest_idx - 2).toNat 0 waypoints

/-- Embeds `WaypointUpdater.generate_lane` (lines 86-93): the base-case
slice `base_waypoints[closest_idx : closest_idx + LOOKAHEAD_WPS]`, or the
decelerated slice `base_waypoints[closest_idx : stopline_wp_idx]` when a
stop line is active inside the horizon. -/
noncomputable def generate_lane (base : List Waypoint) (closest_idx : ℕ)
    (stopline_wp_idx : ℤ) : List Waypoint :=
  if stopline_wp_idx = -1 ∨
      (closest_idx : ℤ) + (LOOKAHEAD_WPS : ℤ) ≤ stopline_wp_idx then
    (base.drop closest_idx).take LOOKAHEAD_WPS
  else
    decelerate_waypoints stopline_wp_idx closest_idx
      ((base.drop closest_idx).take (stopline_wp_idx - closest_idx).toNat)

/-- A waypoint on the x-axis at integer abscissa `k` with nominal route
velocity 10, used as concrete planner input. -/
noncomputable def linePoint (k : ℕ) : Waypoint :=
  ⟨⟨(k : ℝ), 0, 0⟩, 10⟩

/-- The straight 50-waypoint route with unit spacing and nominal velocity
10. -/
noncomputable def lineRoute : List Waypoint :=
  (List.range 50).map linePoint

/-- The straight segment of `n` unit-spaced waypoints starting at
abscissa `s`. -/
noncomputable def lineSeg (s n : ℕ) : List Waypoint :=
  (List.range' s n).map linePoint

end Capstone

namespace Capstone

/-! ## Theorems for the fusion and classifier claims -/

/-- C7: whenever `get_light_state` runs with no camera image available or
with the classifier not yet initialized, it returns RED (fail-safe stop),
never UNKNOWN or a go decision. -/
theorem C7_get_light_state_failsafe {I : Type} (has_image : Bool)
    (classifier : Option (I → Color)) (img : I)
    (h : has_image = false ∨ classifier = none) :
    get_light_state has_image classifier img = Color.RED := by
  unfold get_light_state
  rw [if_pos]
  rcases h with h | h
  · exact Or.inl h
  · exact Or.inr (by rw [h]; rfl)

/-- Witness for C7 at a concrete input: no image, no classifier. -/
theorem C7_witness :
    get_light_state (I := ℕ) false none 0 = Color.RED :=
  C7_get_light_state_failsafe false none 0 (Or.inl rfl)

/-- C9 counterexample: at best confidence exactly 0.25 with class 3 (RED),
the code returns UNKNOWN, not the detection's class — the threshold test
`scores[0][0] > self.threshold` is strict. -/
theorem C9_counterexample :
    get_classification (1/4) 3 = Color.UNKNOWN ∧ Color.UNKNOWN ≠ Color.RED := by
  constructor
  · unfold get_classification
    norm_num
  · intro h
    exact Color.noConfusion h

/-- C9 amended: the classification is the best detection's class mapped to
GREEN/YELLOW/RED exactly when the best confidence is strictly greater than
0.25; whenever the confidence is at most 0.25 the result is UNKNOWN (in
particular, a best confidence of exactly 0.25 yields UNKNOWN). -/
theorem C9_classification_threshold (score : ℚ) :
    (score ≤ 1/4 → ∀ cls : ℕ, get_classification score cls = Color.UNKNOWN) ∧
    (score > 1/4 →
      get_classification score 1 = Color.GREEN ∧
      get_classification score 2 = Color.YELLOW ∧
      get_classification score 3 = Color.RED) := by
  constructor
  · intro hle cls
    unfold get_classification
    rw [if_neg (by exact not_lt.mpr hle)]
  · intro hgt
    refine ⟨?_, ?_, ?_⟩ <;> · unfold get_classification; rw [if_pos hgt]; norm_num

/-- Witness for C9 amended at confidence 1/4 (≤ threshold) and 1/2
(> threshold). -/
theorem C9_witness :
    get_classification (1/4) 3 = Color.UNKNOWN ∧
    get_classification (1/2) 1 = Color.GREEN :=
  ⟨(C9_classification_threshold (1/4)).1 (by norm_num) 3,
   ((C9_classification_threshold (1/2)).2 (by norm_num)).1⟩

/-- C2 counterexample: a frame whose raw classification (RED) differs from
the stored color (GREEN), with the counter at 1 (below the threshold 3),
publishes nothing at all — the reset branch of `image_cb` has no publish
call, so no stop index is repeated on that frame. -/
theorem C2_counterexample :
    (image_cb_step ⟨Color.GREEN, Color.UNKNOWN, -1, 1⟩ 40 Color.RED).2 = none ∧
    (1 : ℕ) < STATE_COUNT_THRESHOLD := by
  constructor
  · rfl
  · decide

/-- C2 amended: on a frame processed while the counter is below the
debounce threshold, the previously committed stop index is published
unchanged only when the raw classification equals the stored color; on a
reset frame (raw classification different from the stored color) nothing
is published, and the committed stop index is left unchanged in both
cases. -/
theorem C2_below_threshold_publish (st : FusionState) (lw : ℤ) (raw : Color)
    (hcount : st.state_count < STATE_COUNT_THRESHOLD) :
    (raw = st.state →
      (image_cb_step st lw raw).2 = some st.last_wp ∧
      (image_cb_step st lw raw).1.last_wp = st.last_wp) ∧
    (raw ≠ st.state →
      (image_cb_step st lw raw).2 = none ∧
      (image_cb_step st lw raw).1.last_wp = st.last_wp) := by
  constructor
  · intro heq
    unfold image_cb_step
    rw [if_neg (by rw [heq]; simp), if_neg (by exact not_le.mpr hcount)]
    exact ⟨rfl, rfl⟩
  · intro hne
    unfold image_cb_step
    rw [if_pos (fun h => hne h.symm)]
    exact ⟨rfl, rfl⟩

/-- Witness for C2 amended: a matching frame with counter 1 republishes
the stored index -1; a reset frame publishes nothing. -/
theorem C2_witness :
    (image_cb_step ⟨Color.RED, Color.UNKNOWN, -1, 1⟩ 40 Color.RED).2 = some (-1) ∧
    (image_cb_step ⟨Color.GREEN, Color.UNKNOWN, -1, 1⟩ 40 Color.YELLOW).2 = none :=
  ⟨((C2_below_threshold_publish ⟨Color.RED, Color.UNKNOWN, -1, 1⟩ 40 Color.RED
      (by decide)).1 rfl).1,
   ((C2_below_threshold_publish ⟨Color.GREEN, Color.UNKNOWN, -1, 1⟩ 40 Color.YELLOW
      (by decide)).2 (by decide)).1⟩

/-- C3 counterexample: from the uncommitted state (stored UNKNOWN ≠ RED,
committed index -1, counter 0), the frames RED, RED, RED with stop line
at index 40 publish nothing, -1, -1: the third RED frame still publishes
-1, not 40 (the counter, checked before its increment, only reaches the
threshold on a fourth frame). -/
theorem C3_counterexample :
    (image_cb_run ⟨Color.UNKNOWN, Color.UNKNOWN, -1, 0⟩
      [(40, Color.RED), (40, Color.RED), (40, Color.RED)]).2 =
      [none, some (-1), some (-1)] := by
  decide

/-- The argmin scan never returns an index beyond the scanned range. -/
theorem nearestAux_lt (q : ℚ × ℚ) (l : List (ℚ × ℚ)) :
    ∀ (i b : ℕ) (d : ℚ), b < i → nearestAux q l i b d < i + l.length := by
  induction l with
  | nil =>
    intro i b d hb
    simpa [nearestAux] using hb.trans_le (Nat.le_refl i)
  | cons w rest ih =>
    intro i b d hb
    rw [nearestAux]
    split
    · have := ih (i+1) i (sqDist w q) (Nat.lt_succ_self i)
      simpa [Nat.add_comm, Nat.add_left_comm] using this
    · have := ih (i+1) b d (hb.trans (Nat.lt_succ_self i))
      simpa [Nat.add_comm, Nat.add_left_comm] using this

/-- The nearest-waypoint index is always in range on a non-empty route. -/
theorem nearestIdx_lt (wps : List (ℚ × ℚ)) (q : ℚ × ℚ) (h : wps ≠ []) :
    nearestIdx wps q < wps.length := by
  match wps with
  | [] => exact absurd rfl h
  | w :: rest =>
    rw [nearestIdx]
    have := nearestAux_lt q rest 1 0 (sqDist w q) Nat.one_pos
    simpa [Nat.add_comm] using this

/-- Python's `l[c-k]` for `k ≤ c + n` is the element at `(c + n - k) mod n`. -/
theorem pythonGet_sub (l : List (ℚ × ℚ)) (c k : ℕ) (hk : k ≤ c + l.length) :
    pythonGet l ((c : ℤ) - k) = l.getD ((c + l.length - k) % l.length) (0, 0) := by
  unfold pythonGet
  congr 1
  have e2 : (((c + l.length - k : ℕ)) : ℤ) = ((c : ℤ) - k) + (l.length : ℤ) * 1 := by
    omega
  have e1 : ((c : ℤ) - k) % (l.length : ℤ) =
      (((c + l.length - k : ℕ)) : ℤ) % (l.length : ℤ) := by
    rw [e2, Int.add_mul_emod_self_left]
  rw [e1, ← Int.natCast_mod, Int.toNat_natCast]

/-- Special case of `pythonGet_sub`: Python's `l[c-1]`. -/
theorem pythonGet_sub_one (l : List (ℚ × ℚ)) (c : ℕ) (h : 1 ≤ c + l.length) :
    pythonGet l ((c : ℤ) - 1) = l.getD ((c + l.length - 1) % l.length) (0, 0) := by
  have := pythonGet_sub l c 1 h
  rwa [Nat.cast_one] at this

/-- Special case of `pythonGet_sub`: Python's `l[c-2]`. -/
theorem pythonGet_sub_two (l : List (ℚ × ℚ)) (c : ℕ) (h : 2 ≤ c + l.length) :
    pythonGet l ((c : ℤ) - 2) = l.getD ((c + l.length - 2) % l.length) (0, 0) := by
  have := pythonGet_sub l c 2 h
  rwa [Nat.cast_ofNat] at this

/-- C4 counterexample: on the 3-point route [(0,0), (1,0), (1,1)] with
query (2, 3/5) the nearest index is 2 and the dot product prescribed by
the claim — prev = (closest-1) mod N — is non-positive, so the claimed
lookup must return 2; but `WaypointUpdater.get_closest_waypoint_idx`
takes prev = waypoints_2d[closest-2] and returns (2+1) mod 3 = 0.  (The
tl_detector lookup does return 2.) -/
theorem C4_counterexample :
    nearestIdx [(0,0), (1,0), (1,1)] (2, 3/5) = 2 ∧
    ¬ 0 < dot (vsub ((1:ℚ), (1:ℚ)) (1, 0)) (vsub (2, 3/5) (1, 1)) ∧
    get_closest_waypoint_idx [(0,0), (1,0), (1,1)] 2 (3/5) = 0 ∧
    get_closest_waypoint [(0,0), (1,0), (1,1)] 2 (3/5) = 2 := by
  refine ⟨?_, ?_, ?_, ?_⟩
  · norm_num [nearestIdx, nearestAux, sqDist]
  · norm_num [dot, vsub]
  · norm_num [get_closest_waypoint_idx, nearestIdx, nearestAux, sqDist,
      pythonGet, dot, vsub, List.getD]
  · norm_num [get_closest_waypoint, nearestIdx, nearestAux, sqDist,
      pythonGet, dot, vsub, List.getD]

/-- C4 amended: on a route of N ≥ 2 waypoints, both lookups advance the
nearest index `c` to `(c+1) mod N` exactly when their half-plane dot
product is positive, but with different reference points:
`TLDetector.get_closest_waypoint` uses prev = (c-1) mod N, as the claim
states, while `WaypointUpdater.get_closest_waypoint_idx` uses
prev = (c-2) mod N. -/
theorem C4_halfplane_prev (wps : List (ℚ × ℚ)) (x y : ℚ)
    (h2 : 2 ≤ wps.length) :
    nearestIdx wps (x, y) < wps.length ∧
    get_closest_waypoint wps x y =
      (if 0 < dot
          (vsub (wps.getD (nearestIdx wps (x, y)) (0, 0))
            (wps.getD ((nearestIdx wps (x, y) + wps.length - 1) % wps.length) (0, 0)))
          (vsub (x, y) (wps.getD (nearestIdx wps (x, y)) (0, 0)))
       then (nearestIdx wps (x, y) + 1) % wps.length
       else nearestIdx wps (x, y)) ∧
    get_closest_waypoint_idx wps x y =
      (if 0 < dot
          (vsub (wps.getD (nearestIdx wps (x, y)) (0, 0))
            (wps.getD ((nearestIdx wps (x, y) + wps.length - 2) % wps.length) (0, 0)))
          (vsub (x, y) (wps.getD (nearestIdx wps (x, y)) (0, 0)))
       then (nearestIdx wps (x, y) + 1) % wps.length
       else nearestIdx wps (x, y)) := by
  have hne : wps ≠ [] := by
    intro h
    rw [h] at h2
    exact absurd h2 (by decide)
  have hc : nearestIdx wps (x, y) < wps.length := nearestIdx_lt wps (x, y) hne
  refine ⟨hc, ?_, ?_⟩
  · show (if 0 < dot
        (vsub (wps.getD (nearestIdx wps (x, y)) (0, 0))
          (pythonGet wps ((nearestIdx wps (x, y) : ℤ) - 1)))
        (vsub (x, y) (wps.getD (nearestIdx wps (x, y)) (0, 0)))
      then (nearestIdx wps (x, y) + 1) % wps.length
      else nearestIdx wps (x, y)) = _
    rw [pythonGet_sub_one wps (nearestIdx wps (x, y)) (by omega)]
  · show (if 0 < dot
        (vsub (wps.getD (nearestIdx wps (x, y)) (0, 0))
          (pythonGet wps ((nearestIdx wps (x, y) : ℤ) - 2)))
        (vsub (x, y) (wps.getD (nearestIdx wps (x, y)) (0, 0)))
      then (nearestIdx wps (x, y) + 1) % wps.length
      else nearestIdx wps (x, y)) = _
    rw [pythonGet_sub_two wps (nearestIdx wps (x, y)) (by omega)]

/-- Witness for C4 amended on the concrete 3-point route and query of the
counterexample scenario. -/
theorem C4_witness :
    nearestIdx [(0,0), (1,0), (1,1)] ((2:ℚ), (3/5:ℚ)) < 3 ∧
    get_closest_waypoint [(0,0), (1,0), (1,1)] 2 (3/5) =
      (if 0 < dot
          (vsub ([((0:ℚ),(0:ℚ)), (1,0), (1,1)].getD (nearestIdx [(0,0), (1,0), (1,1)] (2, 3/5)) (0, 0))
            ([((0:ℚ),(0:ℚ)), (1,0), (1,1)].getD ((nearestIdx [(0,0), (1,0), (1,1)] (2, 3/5) + 3 - 1) % 3) (0, 0)))
          (vsub (2, 3/5) ([((0:ℚ),(0:ℚ)), (1,0), (1,1)].getD (nearestIdx [(0,0), (1,0), (1,1)] (2, 3/5)) (0, 0)))
       then (nearestIdx [(0,0), (1,0), (1,1)] (2, 3/5) + 1) % 3
       else nearestIdx [(0,0), (1,0), (1,1)] (2, 3/5)) := by
  have h := C4_halfplane_prev [(0,0), (1,0), (1,1)] 2 (3/5) (by decide)
  exact ⟨h.1, h.2.1⟩

/-- C5: with a pose available but an empty list of tracked lights, no
light qualifies and `process_traffic_lights` does not return (-1, none):
it raises UnboundLocalError, because the local `state` is only assigned
under `if closest_light:`; the same happens with no pose. -/
theorem C5_unbound_state :
    process_traffic_lights (α := ℕ) (I := ℕ) (some (0, 0)) []
      [(1, 1)] [(0, 0), (1, 0)] true (some fun _ => Color.GREEN) 0 =
      Except.error
        "UnboundLocalError: local variable state referenced before assignment" ∧
    process_traffic_lights (α := ℕ) (I := ℕ) none [0]
      [(1, 1)] [(0, 0), (1, 0)] true (some fun _ => Color.GREEN) 0 =
      Except.error
        "UnboundLocalError: local variable state referenced before assignment" := by
  exact ⟨rfl, rfl⟩

/-- C8: with drive-by-wire disabled, `control` returns exactly (0,0,0)
and the PID integral memory is cleared in the returned state, so no
integral windup carries into the next enabled tick; all other state
fields are untouched. -/
theorem C8_control_disabled (p : ControlParams) (st : ControllerState)
    (now cv lv av : ℚ) :
    (control p st now cv false lv av).1 = (0, 0, 0) ∧
    (control p st now cv false lv av).2.pid.int_val = 0 ∧
    (control p st now cv false lv av).2 =
      { st with pid := { st.pid with int_val := 0 } } := by
  refine ⟨rfl, rfl, ?_⟩
  unfold control PID.reset
  rfl

/-- A tick with drive-by-wire enabled stamps the state with the tick's
wall-clock time. -/
theorem control_enabled_last_time (p : ControlParams) (st : ControllerState)
    (now cv lv av : ℚ) :
    (control p st now cv true lv av).2.last_time = now := rfl

/-- A tick with drive-by-wire disabled leaves `last_time` unchanged. -/
theorem control_disabled_last_time (p : ControlParams) (st : ControllerState)
    (now cv lv av : ℚ) :
    (control p st now cv false lv av).2.last_time = st.last_time := rfl

/-- On an enabled tick the PID integral grows by the velocity error times
the wall-clock sample time `now - last_time`. -/
theorem control_enabled_int_val (p : ControlParams) (st : ControllerState)
    (now cv lv av : ℚ) :
    (control p st now cv true lv av).2.pid.int_val =
      st.pid.int_val +
        (lv - (LowPassFilter.filt (1/2) (1/50) st.lpf_last cv).1) *
          controlSampleTime st now := rfl

/-- Any sequence of disabled ticks leaves `last_time` unchanged. -/
theorem runDisabled_last_time (p : ControlParams) (s : ControllerState)
    (l : List (ℚ × ℚ × ℚ × ℚ)) :
    (runDisabled p s l).last_time = s.last_time := by
  induction l generalizing s with
  | nil => rfl
  | cons d rest ih =>
    obtain ⟨n, c, lv', av'⟩ := d
    rw [runDisabled, ih, control_disabled_last_time]

/-- C10: a disabled tick leaves `last_time` unchanged, so after an enabled
tick at time `t1` followed by any sequence of disabled ticks, the PID
sample time of the next enabled tick at time `t` is `t - t1`, the
wall-clock time elapsed since the last enabled tick; the conjunct about
`int_val` shows this sample time is what the PID actually integrates
over. -/
theorem C10_last_time_disabled (p : ControlParams) (st : ControllerState)
    (t1 cv1 lv1 av1 : ℚ) (ds : List (ℚ × ℚ × ℚ × ℚ)) (t cv lv av : ℚ) :
    (runDisabled p (control p st t1 cv1 true lv1 av1).2 ds).last_time = t1 ∧
    controlSampleTime (runDisabled p (control p st t1 cv1 true lv1 av1).2 ds) t
      = t - t1 ∧
    (control p (runDisabled p (control p st t1 cv1 true lv1 av1).2 ds) t cv
        true lv av).2.pid.int_val =
      (runDisabled p (control p st t1 cv1 true lv1 av1).2 ds).pid.int_val +
        (lv - (LowPassFilter.filt (1/2) (1/50)
          (runDisabled p (control p st t1 cv1 true lv1 av1).2 ds).lpf_last cv).1)
          * (t - t1) := by
  have h1 : (runDisabled p (control p st t1 cv1 true lv1 av1).2 ds).last_time
      = t1 := by
    rw [runDisabled_last_time, control_enabled_last_time]
  have h2 : controlSampleTime
      (runDisabled p (control p st t1 cv1 true lv1 av1).2 ds) t = t - t1 := by
    unfold controlSampleTime
    rw [h1]
  refine ⟨h1, h2, ?_⟩
  rw [control_enabled_int_val, h2]

/-- C3 amended: from the uncommitted state, four consecutive RED frames
with the stop line at index 40 are needed: frame 1 (the reset frame)
publishes nothing, frames 2 and 3 publish the held index -1, and the
published stop index becomes 40 on the fourth RED frame. -/
theorem C3_four_red_frames :
    (image_cb_run ⟨Color.UNKNOWN, Color.UNKNOWN, -1, 0⟩
      [(40, Color.RED), (40, Color.RED), (40, Color.RED), (40, Color.RED)]).2 =
      [none, some (-1), some (-1), some 40] := by
  decide

/-! ## Planner lemmas -/

/-- The deceleration loop outputs `min (stop_idx - i) (length)` waypoints:
it breaks at offset `stop_idx` before appending. -/
theorem decelGo_length (full : List Waypoint) (stop : ℕ) :
    ∀ (l : List Waypoint) (i : ℕ), i ≤ stop →
      (decelGo full stop i l).length = min (stop - i) l.length := by
  intro l
  induction l with
  | nil =>
    intro i _
    simp [decelGo]
  | cons wp rest ih =>
    intro i h
    rw [decelGo]
    by_cases hi : i = stop
    · subst hi
      simp
    · have hlt : i < stop := lt_of_le_of_ne h hi
      rw [if_neg hi]
      simp only [List.length_cons]
      rw [ih (i+1) hlt]
      omega

/-- Every waypoint the deceleration loop outputs keeps its position and
gets velocity `min(snap(sqrt(2·MAX_DECEL·distance(full,0,stop))), nominal)`
— the same distance term for every offset. -/
theorem decelGo_getElem (full : List Waypoint) (stop : ℕ) :
    ∀ (l : List Waypoint) (i j : ℕ), i + j < stop →
      (decelGo full stop i l)[j]? = (l[j]?).map (fun wp =>
        ⟨wp.pos, min
          (if Real.sqrt (2 * MAX_DECEL * distance full 0 stop) < 1/2 then 0
           else Real.sqrt (2 * MAX_DECEL * distance full 0 stop))
          wp.vel⟩) := by
  intro l
  induction l with
  | nil =>
    intro i j _
    simp [decelGo]
  | cons wp rest ih =>
    intro i j h
    have hi : i ≠ stop := by omega
    rw [decelGo, if_neg hi]
    cases j with
    | zero => simp
    | succ j =>
      simp only [List.getElem?_cons_succ]
      exact ih (i+1) j (by omega)

theorem lineSeg_length (s n : ℕ) : (lineSeg s n).length = n := by
  simp [lineSeg]

theorem lineSeg_getElem (s n i : ℕ) (h : i < n) :
    (lineSeg s n)[i]? = some (linePoint (s + i)) := by
  rw [lineSeg, List.getElem?_map, List.getElem?_range' _ _ h]
  simp

theorem lineSeg_getD (s n i : ℕ) (h : i < n) :
    (lineSeg s n).getD i default = linePoint (s + i) := by
  rw [List.getD_eq_getElem?_getD, lineSeg_getElem s n i h]
  rfl

/-- A zero-length segment contributes zero distance. -/
theorem dl_self (p : Position) : dl p p = 0 := by
  simp [dl]

/-- Unit spacing: consecutive line waypoints are one apart. -/
theorem dl_linePoint_succ (k : ℕ) :
    dl (linePoint k).pos (linePoint (k+1)).pos = 1 := by
  show Real.sqrt (((k : ℝ) - ((k+1 : ℕ) : ℝ))^2 + ((0:ℝ) - 0)^2 + ((0:ℝ) - 0)^2) = 1
  have h : ((k : ℝ) - ((k+1 : ℕ) : ℝ))^2 + ((0:ℝ) - 0)^2 + ((0:ℝ) - 0)^2 = 1 := by
    push_cast
    ring
  rw [h, Real.sqrt_one]

/-- The distance loop over offsets `prev+1 .. prev+m` of a straight
unit-spaced segment sums to `m`. -/
theorem distanceLoop_lineSeg (s n : ℕ) :
    ∀ (m prev : ℕ), prev + m < n →
      distanceLoop (lineSeg s n) prev (List.range' (prev + 1) m) = m := by
  intro m
  induction m with
  | zero =>
    intro prev _
    simp [distanceLoop]
  | succ m ih =>
    intro prev h
    rw [List.range'_succ]
    rw [distanceLoop]
    rw [lineSeg_getD s n prev (by omega)]
    rw [show prev + 1 + 1 = prev + 2 by ring]
    rw [lineSeg_getD s n (prev+1) (by omega)]
    rw [show s + (prev+1) = (s+prev) + 1 by ring]
    rw [dl_linePoint_succ (s+prev)]
    rw [show prev + 2 = (prev + 1) + 1 by ring]
    rw [ih (prev+1) (by omega)]
    push_cast
    ring

/-- `WaypointUpdater.distance` on a straight unit-spaced segment is the
index difference. -/
theorem distance_lineSeg (s n a b : ℕ) (hab : a ≤ b) (hb : b < n) :
    distance (lineSeg s n) a b = ((b - a : ℕ) : ℝ) := by
  unfold distance
  rw [show b + 1 - a = (b - a) + 1 by omega]
  rw [List.range'_succ]
  rw [distanceLoop]
  rw [lineSeg_getD s n a (by omega)]
  rw [dl_self]
  rw [distanceLoop_lineSeg s n (b - a) a (by omega)]
  ring

theorem lineRoute_eq_lineSeg : lineRoute = lineSeg 0 50 := by
  rw [lineRoute, lineSeg, List.range_eq_range' 50]

/-- The slice `lineRoute[10:40]` is the straight segment starting at 10. -/
theorem lineRoute_slice : (lineRoute.drop 10).take 30 = lineSeg 10 30 := by
  rw [lineRoute_eq_lineSeg, lineSeg, ← List.map_drop, ← List.map_take]
  rw [show ((List.range' 0 50).drop 10).take 30 = List.range' 10 30 from rfl]
  rfl

theorem real_sqrt_four : Real.sqrt 4 = 2 := by
  rw [show (4:ℝ) = 2^2 by norm_num, Real.sqrt_sq (by norm_num : (0:ℝ) ≤ 2)]

theorem real_sqrt_two_lt_two : Real.sqrt 2 < 2 := by
  have h : Real.sqrt 2 < Real.sqrt 4 := Real.sqrt_lt_sqrt (by norm_num) (by norm_num)
  rwa [real_sqrt_four] at h

theorem half_lt_real_sqrt_two : 1/2 < Real.sqrt 2 := by
  have h : Real.sqrt 1 ≤ Real.sqrt 2 := Real.sqrt_le_sqrt (by norm_num)
  rw [Real.sqrt_one] at h
  linarith

theorem real_sqrt_two_le_ten : Real.sqrt 2 ≤ 10 := by
  have h : Real.sqrt 2 ≤ Real.sqrt 100 := Real.sqrt_le_sqrt (by norm_num)
  rwa [show (100:ℝ) = 10^2 by norm_num,
    Real.sqrt_sq (by norm_num : (0:ℝ) ≤ 10)] at h

theorem half_lt_real_sqrt_56 : 1/2 < Real.sqrt 56 := by
  have h : Real.sqrt 1 ≤ Real.sqrt 56 := Real.sqrt_le_sqrt (by norm_num)
  rw [Real.sqrt_one] at h
  linarith

theorem real_sqrt_56_le_ten : Real.sqrt 56 ≤ 10 := by
  have h : Real.sqrt 56 ≤ Real.sqrt 100 := Real.sqrt_le_sqrt (by norm_num)
  rwa [show (100:ℝ) = 10^2 by norm_num,
    Real.sqrt_sq (by norm_num : (0:ℝ) ≤ 10)] at h

theorem real_sqrt_56_ne_zero : Real.sqrt 56 ≠ 0 :=
  ne_of_gt (Real.sqrt_pos.mpr (by norm_num))

/-- Scenario B evaluated on the straight unit-spaced route: the planner
emits 28 waypoints and the last one (offset 27) has velocity √56. -/
theorem generate_lane_lineRoute_eval :
    (generate_lane lineRoute 10 40).length = 28 ∧
    ((generate_lane lineRoute 10 40)[27]?).map Waypoint.vel =
      some (Real.sqrt 56) := by
  have hcond : ¬((40:ℤ) = -1 ∨ ((10:ℕ) : ℤ) + ((LOOKAHEAD_WPS : ℕ) : ℤ) ≤ 40) := by
    rw [show LOOKAHEAD_WPS = 50 from rfl]
    norm_num
  unfold generate_lane
  rw [if_neg hcond]
  rw [show ((40:ℤ) - ((10:ℕ) : ℤ)).toNat = 30 from rfl]
  rw [lineRoute_slice]
  unfold decelerate_waypoints
  rw [show ((40:ℤ) - ((10:ℕ) : ℤ) - 2).toNat = 28 from rfl]
  have hd : 2 * MAX_DECEL * ((28 - 0 : ℕ) : ℝ) = 56 := by
    unfold MAX_DECEL
    norm_num
  constructor
  · rw [decelGo_length (lineSeg 10 30) 28 (lineSeg 10 30) 0 (by omega),
      lineSeg_length]
    omega
  · rw [decelGo_getElem (lineSeg 10 30) 28 (lineSeg 10 30) 0 27 (by omega)]
    rw [lineSeg_getElem 10 30 27 (by omega)]
    rw [distance_lineSeg 10 30 0 28 (by omega) (by omega), hd]
    rw [if_neg (not_lt.mpr (le_of_lt half_lt_real_sqrt_56))]
    simp only [Option.map_some']
    rw [show (linePoint (10 + 27)).vel = 10 from rfl]
    rw [min_eq_left real_sqrt_56_le_ten]

/-- C1: in the deceleration loop the distance fed to the velocity law for
the waypoint at offset 1 is taken from slice offset 0
(`self.distance(waypoints, 0, stop_idx)`), not from offset 1: on the
straight unit-spaced 4-waypoint slice with `stopline-closest-2 = 2` the
emitted velocity is √(2·1·2) = 2, while the remaining distance from
offset 1 is 1, whose claimed velocity min(snap(√(2·1·1)), 10) = √2 ≠ 2. -/
theorem C1_distance_from_slice_start :
    ((decelerate_waypoints 14 10 (lineSeg 0 4))[1]?).map Waypoint.vel = some 2 ∧
    distance (lineSeg 0 4) 1 2 = 1 ∧
    min (if Real.sqrt (2 * MAX_DECEL * distance (lineSeg 0 4) 1 2) < 1/2 then 0
         else Real.sqrt (2 * MAX_DECEL * distance (lineSeg 0 4) 1 2))
      ((lineSeg 0 4).getD 1 default).vel ≠ 2 := by
  have h12 : distance (lineSeg 0 4) 1 2 = 1 := by
    rw [distance_lineSeg 0 4 1 2 (by omega) (by omega)]
    norm_num
  refine ⟨?_, h12, ?_⟩
  · unfold decelerate_waypoints
    rw [show ((14:ℤ) - 10 - 2).toNat = 2 from rfl]
    rw [decelGo_getElem (lineSeg 0 4) 2 (lineSeg 0 4) 0 1 (by omega)]
    rw [lineSeg_getElem 0 4 1 (by omega)]
    have hd : 2 * MAX_DECEL * ((2 - 0 : ℕ) : ℝ) = 4 := by
      unfold MAX_DECEL
      norm_num
    rw [distance_lineSeg 0 4 0 2 (by omega) (by omega), hd, real_sqrt_four]
    rw [if_neg (by norm_num : ¬ (2:ℝ) < 1/2)]
    simp only [Option.map_some']
    rw [show (linePoint (0 + 1)).vel = 10 from rfl]
    rw [min_eq_left (by norm_num : (2:ℝ) ≤ 10)]
  · rw [h12]
    have hd : 2 * MAX_DECEL * (1:ℝ) = 2 := by
      unfold MAX_DECEL
      norm_num
    rw [hd]
    rw [if_neg (not_lt.mpr (le_of_lt half_lt_real_sqrt_two))]
    rw [lineSeg_getD 0 4 1 (by omega)]
    rw [show (linePoint (0 + 1)).vel = 10 from rfl]
    rw [min_eq_left real_sqrt_two_le_ten]
    exact ne_of_lt real_sqrt_two_lt_two

/-- C6 counterexample: with the stop line at route index 40, the car at
route index 10 and horizon 50, on the straight unit-spaced route the
planner outputs 28 waypoints, not 30, and the last included waypoint
(offset 27) has velocity √56, which is neither at most 0.5 nor 0. -/
theorem C6_counterexample :
    (generate_lane lineRoute 10 40).length ≠ 30 ∧
    ((generate_lane lineRoute 10 40)[27]?).map Waypoint.vel =
      some (Real.sqrt 56) ∧
    ¬ Real.sqrt 56 ≤ 1/2 ∧ Real.sqrt 56 ≠ 0 := by
  refine ⟨?_, generate_lane_lineRoute_eval.2,
    not_le.mpr half_lt_real_sqrt_56, real_sqrt_56_ne_zero⟩
  rw [generate_lane_lineRoute_eval.1]
  omega

/-- C6 amended: with the stop line at index 40, the car at index 10 and
horizon 50, the planner's output contains exactly 28 waypoints — the
waypoints at slice offsets 0..27; the stop offset 28 is excluded by the
loop's break — and every included waypoint's velocity is
min(snap(√(2·MAX_DECEL·D)), nominal) with D the summed segment length
from slice offset 0 (the same D for all offsets) to stop offset 28; on
the straight unit-spaced route the last included waypoint's velocity is
√56, not 0. -/
theorem C6_scenario_b (base : List Waypoint) (h : 40 ≤ base.length) :
    (generate_lane base 10 40).length = 28 ∧
    (∀ j, j < 28 →
      (generate_lane base 10 40)[j]? =
        (((base.drop 10).take 30)[j]?).map (fun wp =>
          ⟨wp.pos, min
            (if Real.sqrt (2 * MAX_DECEL *
                distance ((base.drop 10).take 30) 0 28) < 1/2 then 0
             else Real.sqrt (2 * MAX_DECEL *
                distance ((base.drop 10).take 30) 0 28))
            wp.vel⟩)) ∧
    ((generate_lane lineRoute 10 40)[27]?).map Waypoint.vel =
      some (Real.sqrt 56) ∧
    Real.sqrt 56 ≠ 0 := by
  have hcond : ¬((40:ℤ) = -1 ∨ ((10:ℕ) : ℤ) + ((LOOKAHEAD_WPS : ℕ) : ℤ) ≤ 40) := by
    rw [show LOOKAHEAD_WPS = 50 from rfl]
    norm_num
  have hslice : ((base.drop 10).take 30).length = 30 := by
    rw [List.length_take, List.length_drop]
    omega
  refine ⟨?_, ?_, generate_lane_lineRoute_eval.2, real_sqrt_56_ne_zero⟩
  · unfold generate_lane
    rw [if_neg hcond]
    rw [show ((40:ℤ) - ((10:ℕ) : ℤ)).toNat = 30 from rfl]
    unfold decelerate_waypoints
    rw [show ((40:ℤ) - ((10:ℕ) : ℤ) - 2).toNat = 28 from rfl]
    rw [decelGo_length _ 28 _ 0 (by omega), hslice]
    omega
  · intro j hj
    unfold generate_lane
    rw [if_neg hcond]
    rw [show ((40:ℤ) - ((10:ℕ) : ℤ)).toNat = 30 from rfl]
    unfold decelerate_waypoints
    rw [show ((40:ℤ) - ((10:ℕ) : ℤ) - 2).toNat = 28 from rfl]
    exact decelGo_getElem _ 28 _ 0 j (by omega)

/-- Witness for C6 amended on the straight unit-spaced 50-waypoint
route. -/
theorem C6_witness :
    (generate_lane lineRoute 10 40).length = 28 :=
  (C6_scenario_b lineRoute
    (by rw [lineRoute_eq_lineSeg, lineSeg_length]; omega)).1

end Capstone
